import Mathlib

/-!
Verification development for the design-pattern quiz application.

The definitions below are a shallow embedding of the client-side game
state machine and the cross-window synchronization layer:

* `GameState`, `initialState` and the reducer functions (`setTeams`,
  `updateTeamScore`, `setCurrentExample`, `setSelectedCategory`,
  `setSelectedPatternCount`, `revealSolution`, `awardPoint`, `nextRound`,
  `togglePause`, `resetGame`, `hydrate`) embed the Redux slice
  `lib/store/gameSlice.ts`.
* `handleCategorySelect`, `handleShowExample`, `handleAwardPoint` embed
  the intent handlers of `components/RoundController.tsx`.
* `Json`, `encodeGame`, `parseSnapshot`, `syncFromLocalStorage` and
  `persistSnapshot` embed the serialization performed by the
  `syncWithLocalStorage` middleware together with the reader side in
  `app/match-viewer/page.tsx`.
* `timerTick` and `sortTeamsByScoreDesc` embed the display-layer timer
  effect and the scoreboard sort of the viewer and controller.

JavaScript numbers that only ever hold integral values (scores, round
numbers, millisecond timestamps, elapsed seconds) are embedded as `Int`;
`Math.floor` of a quotient is `Int.fdiv`.  JavaScript truthiness of the
guard `team && state.currentExample && state.roundStartTime` is embedded
faithfully: `null` is `Option.none` and the number `0` is falsy, so the
`roundStartTime` conjunct requires a non-`null`, nonzero value.
-/

/-- Pattern category, from `lib/types.ts` (`Category`). -/
inductive Category where
  | creational
  | structural
  | behavioral
deriving DecidableEq, Repr

/-- The value of the category filter, `Category | "all"` in
`gameSlice.ts` (`selectedCategory` also admits `null`, embedded as
`Option CatFilter`). -/
inductive CatFilter where
  | all
  | cat (c : Category)
deriving DecidableEq, Repr

/-- The value of the required-pattern-count filter, the TypeScript
literal union `1 | 2 | 3` (with `null` embedded as `Option`). -/
inductive PatternCount where
  | one
  | two
  | three
deriving DecidableEq, Repr

/-- Numeric value of a `PatternCount`, used to compare with
`solutionPatterns.length`. -/
def PatternCount.toNat : PatternCount → Nat
  | .one => 1
  | .two => 2
  | .three => 3

/-- A team, from `lib/types.ts`. -/
structure Team where
  id : String
  name : String
  score : Int
  color : String
deriving DecidableEq, Repr

/-- A catalog entry, from `lib/types.ts` (`PatternExample`). -/
structure PatternExample where
  id : String
  title : String
  category : Category
  code : String
  solutionPatterns : List String
  solutionExplanation : String
deriving DecidableEq, Repr

/-- One answer-history entry, from `gameSlice.ts` (`AnswerHistory`). -/
structure AnswerHistory where
  roundNumber : Int
  «example» : PatternExample
  winnerTeam : Option Team
  timestamp : Int
  timeElapsed : Int
deriving DecidableEq, Repr

/-- The full game state, from `gameSlice.ts` (`GameState`). -/
structure GameState where
  teams : List Team
  roundNumber : Int
  usedExampleIds : List String
  currentExample : Option PatternExample
  solutionRevealed : Bool
  selectedCategory : Option CatFilter
  selectedPatternCount : Option PatternCount
  answerHistory : List AnswerHistory
  roundStartTime : Option Int
  isPaused : Bool
deriving DecidableEq, Repr

/-- `initialState` of `gameSlice.ts`. -/
def initialState : GameState where
  teams := []
  roundNumber := 1
  usedExampleIds := []
  currentExample := none
  solutionRevealed := false
  selectedCategory := none
  selectedPatternCount := none
  answerHistory := []
  roundStartTime := none
  isPaused := false

/-- A partial state object, the payload of the `hydrate` action
(`Partial<GameState>` in `gameSlice.ts`): every field may be absent. -/
structure Snapshot where
  teams : Option (List Team) := none
  roundNumber : Option Int := none
  usedExampleIds : Option (List String) := none
  currentExample : Option (Option PatternExample) := none
  solutionRevealed : Option Bool := none
  selectedCategory : Option (Option CatFilter) := none
  selectedPatternCount : Option (Option PatternCount) := none
  answerHistory : Option (List AnswerHistory) := none
  roundStartTime : Option (Option Int) := none
  isPaused : Option Bool := none
deriving DecidableEq, Repr

/-- Reducer `setTeams`: replaces the team list wholesale. -/
def setTeams (ts : List Team) (s : GameState) : GameState :=
  { s with teams := ts }

/-- `state.teams.find(t => t.id === teamId)` followed by
`team.score += points`: adds `points` to the score of the first team
whose id matches, returning the updated list together with the updated
team (the object JavaScript mutated in place), or `none` when no team
matches. -/
def addScoreFirst (teamId : String) (points : Int) :
    List Team → List Team × Option Team
  | [] => ([], none)
  | t :: ts =>
    if t.id == teamId then
      let t' : Team := { t with score := t.score + points }
      (t' :: ts, some t')
    else
      let r := addScoreFirst teamId points ts
      (t :: r.1, r.2)

/-- Reducer `updateTeamScore`: adds `points` to the first matching
team's score; silently does nothing when the id is absent. -/
def updateTeamScore (teamId : String) (points : Int) (s : GameState) :
    GameState :=
  { s with teams := (addScoreFirst teamId points s.teams).1 }

/-- Reducer `setCurrentExample`: sets the current example; when the
payload is non-null it records the id into `usedExampleIds`, sets
`roundStartTime` to `Date.now()` (passed here as `now`), resets
`solutionRevealed` and unpauses; when the payload is null it clears
`roundStartTime` (and nothing else). -/
def setCurrentExample (now : Int) (p : Option PatternExample)
    (s : GameState) : GameState :=
  match p with
  | some e =>
    { s with currentExample := some e
             usedExampleIds := s.usedExampleIds ++ [e.id]
             roundStartTime := some now
             solutionRevealed := false
             isPaused := false }
  | none =>
    { s with currentExample := none, roundStartTime := none }

/-- Reducer `setSelectedCategory`: sets the category filter (and
nothing else; the pattern-count reset is done by the controller). -/
def setSelectedCategory (c : Option CatFilter) (s : GameState) :
    GameState :=
  { s with selectedCategory := c }

/-- Reducer `setSelectedPatternCount`: sets the pattern-count filter. -/
def setSelectedPatternCount (n : Option PatternCount) (s : GameState) :
    GameState :=
  { s with selectedPatternCount := n }

/-- Reducer `revealSolution`: sets `solutionRevealed` to true,
unconditionally (no phase guard in the code). -/
def revealSolution (s : GameState) : GameState :=
  { s with solutionRevealed := true }

/-- Reducer `awardPoint`: under the inline guard
`team && state.currentExample && state.roundStartTime` it increments the
found team's score by 1 and appends one history entry whose
`winnerTeam` is a copy of the already-incremented team and whose
`timeElapsed` is `Math.floor((Date.now() - roundStartTime) / 1000)`;
otherwise it silently does nothing.  `now` stands for `Date.now()`;
the `roundStartTime` conjunct of the guard is JavaScript truthiness,
so the value `0` fails it. -/
def awardPoint (now : Int) (teamId : String) (s : GameState) :
    GameState :=
  match s.currentExample, s.roundStartTime with
  | some ex, some start =>
    if start == 0 then s
    else
      match addScoreFirst teamId 1 s.teams with
      | (teams', some t') =>
        { s with teams := teams'
                 answerHistory := s.answerHistory ++
                   [{ roundNumber := s.roundNumber
                      «example» := ex
                      winnerTeam := some t'
                      timestamp := now
                      timeElapsed := (now - start).fdiv 1000 }] }
      | (_, none) => s
  | _, _ => s

/-- Reducer `nextRound`: increments the round number and clears the
current example, both filters, the reveal flag, the round start time
and the pause flag. -/
def nextRound (s : GameState) : GameState :=
  { s with roundNumber := s.roundNumber + 1
           currentExample := none
           selectedCategory := none
           selectedPatternCount := none
           solutionRevealed := false
           roundStartTime := none
           isPaused := false }

/-- Reducer `togglePause`: flips the paused flag. -/
def togglePause (s : GameState) : GameState :=
  { s with isPaused := !s.isPaused }

/-- Reducer `resetGame`: returns to the initial state. -/
def resetGame (_s : GameState) : GameState :=
  initialState

/-- Reducer `hydrate`: shallow-merges the supplied partial state over
the current state (`{ ...state, ...action.payload }`): every field
present in the payload overwrites the corresponding field. -/
def hydrate (p : Snapshot) (s : GameState) : GameState where
  teams := p.teams.getD s.teams
  roundNumber := p.roundNumber.getD s.roundNumber
  usedExampleIds := p.usedExampleIds.getD s.usedExampleIds
  currentExample := p.currentExample.getD s.currentExample
  solutionRevealed := p.solutionRevealed.getD s.solutionRevealed
  selectedCategory := p.selectedCategory.getD s.selectedCategory
  selectedPatternCount := p.selectedPatternCount.getD s.selectedPatternCount
  answerHistory := p.answerHistory.getD s.answerHistory
  roundStartTime := p.roundStartTime.getD s.roundStartTime
  isPaused := p.isPaused.getD s.isPaused

/-- The category restriction the controller passes to the repository:
`selectedCategory === "all" ? null : selectedCategory`
(`RoundController.tsx`, `handleShowExample`). -/
def categoryFilterOf : CatFilter → Option Category
  | .all => none
  | .cat c => some c

/-- Whether a catalog entry matches the filters: category matches when a
restriction is given, the solution pattern-list length equals the
required count, and the id is not excluded. -/
def exampleMatches (count : PatternCount) (categoryFilter : Option Category)
    (excludeIds : List String) (e : PatternExample) : Bool :=
  (match categoryFilter with
   | some c => e.category == c
   | none => true)
  && e.solutionPatterns.length == count.toNat
  && !(excludeIds.contains e.id)

/-- Modelled from the spec: the Example Repository function
`getRandomExampleByPatternCount` of `lib/examples.ts` is not among the
analyzed sources (only its callers and documentation are).  Per the
spec's contract it filters the static catalog to entries matching the
category restriction (if given) and whose solution pattern-list length
equals the required count, removes excluded ids, and picks uniformly at
random from what remains, returning `null` when the filtered set is
empty.  The random choice is embedded by an explicit `pick` parameter
reduced modulo the filtered length, so every uniform outcome is some
`pick` and the empty-set case yields `none` for every `pick`. -/
def getRandomExampleByPatternCount (catalog : List PatternExample)
    (count : PatternCount) (categoryFilter : Option Category)
    (excludeIds : List String) (pick : Nat) : Option PatternExample :=
  let filtered := catalog.filter (exampleMatches count categoryFilter excludeIds)
  filtered.get? (pick % filtered.length)

/-- Controller intent `handleCategorySelect`
(`RoundController.tsx`): dispatches `setSelectedCategory(category)` and
then `setSelectedPatternCount(null)`. -/
def handleCategorySelect (c : CatFilter) (s : GameState) : GameState :=
  setSelectedPatternCount none (setSelectedCategory (some c) s)

/-- Controller intent `handleShowExample` (`RoundController.tsx`):
returns early when either filter is unset; otherwise queries the
repository with the current filters and the accumulated used-id set and
either dispatches `setCurrentExample` or raises the user-facing alert.
The returned `Bool` is true exactly when the alert was shown. -/
def handleShowExample (catalog : List PatternExample) (pick : Nat)
    (now : Int) (s : GameState) : GameState × Bool :=
  match s.selectedCategory, s.selectedPatternCount with
  | some cat, some cnt =>
    match getRandomExampleByPatternCount catalog cnt (categoryFilterOf cat)
        s.usedExampleIds pick with
    | some e => (setCurrentExample now (some e) s, false)
    | none => (s, true)
  | _, _ => (s, false)

/-- Controller intent `handleAwardPoint` (`RoundController.tsx`):
dispatches `awardPoint(teamId)` immediately followed by `nextRound()`.
(The handler also mirrors the +1 into the React `teams` prop, which the
sync `useEffect` dispatches back via `setTeams` with the same list the
reducer already produced; that echo does not change the slice state
modelled here.) -/
def handleAwardPoint (now : Int) (teamId : String) (s : GameState) :
    GameState :=
  nextRound (awardPoint now teamId s)

/-- One dispatched action of the slice, with the `Date.now()` readings
made explicit. -/
inductive GameAction where
  | setTeams (ts : List Team)
  | updateTeamScore (teamId : String) (points : Int)
  | setCurrentExample (now : Int) (p : Option PatternExample)
  | setSelectedCategory (c : Option CatFilter)
  | setSelectedPatternCount (n : Option PatternCount)
  | revealSolution
  | awardPoint (now : Int) (teamId : String)
  | nextRound
  | togglePause
  | resetGame
  | hydrate (p : Snapshot)

/-- Apply one action through the corresponding reducer. -/
def applyAction (a : GameAction) (s : GameState) : GameState :=
  match a with
  | .setTeams ts => setTeams ts s
  | .updateTeamScore teamId points => updateTeamScore teamId points s
  | .setCurrentExample now p => setCurrentExample now p s
  | .setSelectedCategory c => setSelectedCategory c s
  | .setSelectedPatternCount n => setSelectedPatternCount n s
  | .revealSolution => revealSolution s
  | .awardPoint now teamId => awardPoint now teamId s
  | .nextRound => nextRound s
  | .togglePause => togglePause s
  | .resetGame => resetGame s
  | .hydrate p => hydrate p s

/-- Apply a sequence of actions in dispatch order. -/
def applyList : List GameAction → GameState → GameState
  | [], s => s
  | a :: as, s => applyList as (applyAction a s)

/-- The reveal invariant: `solutionRevealed` is true only while
`currentExample` is non-null. -/
def invB (s : GameState) : Bool :=
  !s.solutionRevealed || s.currentExample.isSome

/-- The steps that can break the reveal invariant, and the conditions
under which they preserve it: `revealSolution` needs a current example,
`setCurrentExample(null)` needs the solution not to be revealed, and
`hydrate` needs the merged state to satisfy the invariant.  Every other
action preserves the invariant unconditionally. -/
def safeStep (s : GameState) : GameAction → Bool
  | .revealSolution => s.currentExample.isSome
  | .setCurrentExample _ none => !s.solutionRevealed
  | .hydrate p => invB (hydrate p s)
  | _ => true

/-- A trace is safe when every step is safe in the state it fires in. -/
def safeTrace : GameState → List GameAction → Bool
  | _, [] => true
  | s, a :: as => safeStep s a && safeTrace (applyAction a s) as

/-- JSON values, as produced by `JSON.stringify`/`JSON.parse` for the
data persisted in the `gameState` slot.  All numbers occurring in a
`GameState` are integral, so numbers are embedded as `Int`. -/
inductive Json where
  | null : Json
  | bool : Bool → Json
  | num : Int → Json
  | str : String → Json
  | arr : List Json → Json
  | obj : List (String × Json) → Json

/-- Look up a key of a JSON object. -/
def Json.getField (j : Json) (k : String) : Option Json :=
  match j with
  | .obj kvs => kvs.lookup k
  | _ => none

/-- JSON form of a `Category` value. -/
def encodeCategory : Category → Json
  | .creational => .str "creational"
  | .structural => .str "structural"
  | .behavioral => .str "behavioral"

/-- Decode a `Category` value. -/
def decodeCategory (j : Json) : Option Category :=
  match j with
  | .str s =>
    if s == "creational" then some .creational
    else if s == "structural" then some .structural
    else if s == "behavioral" then some .behavioral
    else none
  | _ => none

/-- JSON form of the nullable category filter. -/
def encodeCatFilter : Option CatFilter → Json
  | none => .null
  | some .all => .str "all"
  | some (.cat c) => encodeCategory c

/-- Decode the nullable category filter. -/
def decodeCatFilter (j : Json) : Option (Option CatFilter) :=
  match j with
  | .null => some none
  | .str s =>
    if s == "all" then some (some .all)
    else
      match decodeCategory (.str s) with
      | some c => some (some (.cat c))
      | none => none
  | _ => none

/-- JSON form of the nullable pattern count (`1 | 2 | 3 | null`). -/
def encodePatternCount : Option PatternCount → Json
  | none => .null
  | some n => .num n.toNat

/-- Decode the nullable pattern count. -/
def decodePatternCount (j : Json) : Option (Option PatternCount) :=
  match j with
  | .null => some none
  | .num n =>
    if n == 1 then some (some .one)
    else if n == 2 then some (some .two)
    else if n == 3 then some (some .three)
    else none
  | _ => none

/-- JSON form of a `Team`. -/
def encodeTeam (t : Team) : Json :=
  .obj [("id", .str t.id), ("name", .str t.name),
        ("score", .num t.score), ("color", .str t.color)]

/-- Decode a `Team`. -/
def decodeTeam (j : Json) : Option Team :=
  match j.getField "id", j.getField "name",
      j.getField "score", j.getField "color" with
  | some (.str id), some (.str name), some (.num score), some (.str color) =>
    some { id := id, name := name, score := score, color := color }
  | _, _, _, _ => none

/-- JSON form of a `PatternExample`. -/
def encodeExample (e : PatternExample) : Json :=
  .obj [("id", .str e.id), ("title", .str e.title),
        ("category", encodeCategory e.category), ("code", .str e.code),
        ("solutionPatterns", .arr (e.solutionPatterns.map Json.str)),
        ("solutionExplanation", .str e.solutionExplanation)]

/-- Decode a JSON string. -/
def decodeStr (j : Json) : Option String :=
  match j with
  | .str s => some s
  | _ => none

/-- Decode a JSON array element-wise, failing when any element fails. -/
def decodeList (dec : Json → Option α) : Json → Option (List α)
  | .arr js => decodeElems dec js
  | _ => none
where
  /-- Decode each element of a list of JSON values. -/
  decodeElems (dec : Json → Option α) : List Json → Option (List α)
    | [] => some []
    | j :: js =>
      match dec j, decodeElems dec js with
      | some a, some as => some (a :: as)
      | _, _ => none

/-- Decode a `PatternExample`. -/
def decodeExample (j : Json) : Option PatternExample :=
  match j.getField "id", j.getField "title",
      (j.getField "category").bind decodeCategory, j.getField "code",
      (j.getField "solutionPatterns").bind (decodeList decodeStr),
      j.getField "solutionExplanation" with
  | some (.str id), some (.str title), some category, some (.str code),
      some sps, some (.str expl) =>
    some { id := id, title := title, category := category, code := code,
           solutionPatterns := sps, solutionExplanation := expl }
  | _, _, _, _, _, _ => none

/-- JSON form of a nullable current example. -/
def encodeOptExample : Option PatternExample → Json
  | none => .null
  | some e => encodeExample e

/-- Decode a nullable current example. -/
def decodeOptExample (j : Json) : Option (Option PatternExample) :=
  match j with
  | .null => some none
  | _ =>
    match decodeExample j with
    | some e => some (some e)
    | none => none

/-- JSON form of a nullable team (history winner). -/
def encodeOptTeam : Option Team → Json
  | none => .null
  | some t => encodeTeam t

/-- Decode a nullable team. -/
def decodeOptTeam (j : Json) : Option (Option Team) :=
  match j with
  | .null => some none
  | _ =>
    match decodeTeam j with
    | some t => some (some t)
    | none => none

/-- JSON form of a nullable number (`roundStartTime`). -/
def encodeOptInt : Option Int → Json
  | none => .null
  | some i => .num i

/-- Decode a nullable number. -/
def decodeOptInt (j : Json) : Option (Option Int) :=
  match j with
  | .null => some none
  | .num i => some (some i)
  | _ => none

/-- Decode a number. -/
def decodeInt (j : Json) : Option Int :=
  match j with
  | .num i => some i
  | _ => none

/-- Decode a boolean. -/
def decodeBool (j : Json) : Option Bool :=
  match j with
  | .bool b => some b
  | _ => none

/-- JSON form of an `AnswerHistory` entry. -/
def encodeHistory (h : AnswerHistory) : Json :=
  .obj [("roundNumber", .num h.roundNumber),
        ("example", encodeExample h.example),
        ("winnerTeam", encodeOptTeam h.winnerTeam),
        ("timestamp", .num h.timestamp),
        ("timeElapsed", .num h.timeElapsed)]

/-- Decode an `AnswerHistory` entry. -/
def decodeHistory (j : Json) : Option AnswerHistory :=
  match j.getField "roundNumber",
      (j.getField "example").bind decodeExample,
      (j.getField "winnerTeam").bind decodeOptTeam,
      j.getField "timestamp", j.getField "timeElapsed" with
  | some (.num rn), some ex, some wt, some (.num ts), some (.num te) =>
    some { roundNumber := rn, «example» := ex, winnerTeam := wt,
           timestamp := ts, timeElapsed := te }
  | _, _, _, _, _ => none

/-- `JSON.stringify(state)` performed by the `syncWithLocalStorage`
middleware: the entire `GameState` as one JSON object, every field
present (nullable fields serialize as `null`). -/
def encodeGame (s : GameState) : Json :=
  .obj [("teams", .arr (s.teams.map encodeTeam)),
        ("roundNumber", .num s.roundNumber),
        ("usedExampleIds", .arr (s.usedExampleIds.map Json.str)),
        ("currentExample", encodeOptExample s.currentExample),
        ("solutionRevealed", .bool s.solutionRevealed),
        ("selectedCategory", encodeCatFilter s.selectedCategory),
        ("selectedPatternCount", encodePatternCount s.selectedPatternCount),
        ("answerHistory", .arr (s.answerHistory.map encodeHistory)),
        ("roundStartTime", encodeOptInt s.roundStartTime),
        ("isPaused", .bool s.isPaused)]

/-- The partial state obtained by reading a parsed JSON object
field-by-field: a key that is present with a well-typed value yields
that field; any other key is absent.  This is the typed image of the
untyped `JSON.parse(savedState)` payload handed to `hydrate`. -/
def parseSnapshot (j : Json) : Snapshot where
  teams := (j.getField "teams").bind (decodeList decodeTeam)
  roundNumber := (j.getField "roundNumber").bind decodeInt
  usedExampleIds := (j.getField "usedExampleIds").bind (decodeList decodeStr)
  currentExample := (j.getField "currentExample").bind decodeOptExample
  solutionRevealed := (j.getField "solutionRevealed").bind decodeBool
  selectedCategory := (j.getField "selectedCategory").bind decodeCatFilter
  selectedPatternCount :=
    (j.getField "selectedPatternCount").bind decodePatternCount
  answerHistory := (j.getField "answerHistory").bind (decodeList decodeHistory)
  roundStartTime := (j.getField "roundStartTime").bind decodeOptInt
  isPaused := (j.getField "isPaused").bind decodeBool

/-- Contents of the `localStorage` slot `gameState` as seen by a
reader: absent (`getItem` returned `null` or the empty string, both
falsy), present but not valid JSON (`JSON.parse` throws), or a parsed
JSON value. -/
inductive StoredValue where
  | missing : StoredValue
  | malformed : StoredValue
  | json : Json → StoredValue

/-- The reader-side `syncFromLocalStorage` of
`app/match-viewer/page.tsx`: all three triggers (the cross-window
`storage` event for the `gameState` key, the same-process
`gameStateChanged` event, and the 500 ms poll) invoke this same
function.  A missing value is skipped by the `if (savedState)` test; a
parse failure is caught (and logged via `console.error`, a side effect
with no state impact); a parsed value is dispatched through
`hydrate`. -/
def syncFromLocalStorage (slot : StoredValue) (s : GameState) : GameState :=
  match slot with
  | .missing => s
  | .malformed => s
  | .json j => hydrate (parseSnapshot j) s

/-- The writer-side persistence performed by the middleware after every
action: the full state serialized into the slot. -/
def persistSnapshot (s : GameState) : StoredValue :=
  .json (encodeGame s)

/-- The 1000 ms period of the viewer's elapsed-time interval. -/
def timerIntervalMs : Int := 1000

/-- One firing opportunity of the viewer timer effect
(`app/match-viewer/page.tsx`): the guard
`if (!roundStartTime || isPaused) return` makes the effect return
before installing the interval, so the displayed value stays what it
was; `!roundStartTime` is JavaScript truthiness, true both for `null`
and for the number `0`.  Otherwise each tick recomputes
`Math.floor((Date.now() - roundStartTime) / 1000)`. -/
def timerTick (roundStartTime : Option Int) (isPaused : Bool)
    (now elapsed : Int) : Int :=
  match roundStartTime with
  | none => elapsed
  | some start =>
    if start == 0 || isPaused then elapsed
    else (now - start).fdiv timerIntervalMs

/-- The score-descending sort used for display by both scoreboards
(`[...teams].sort((a, b) => b.score - a.score)`): the spread copies the
list, and the comparator orders larger scores first. -/
def sortTeamsByScoreDesc (ts : List Team) : List Team :=
  ts.mergeSort (fun a b => b.score ≤ a.score)

/-- `sortedTeams` of the match viewer: the display ranking computed
from the state's team list. -/
def sortedTeamsView (s : GameState) : List Team :=
  sortTeamsByScoreDesc s.teams

/-- Decoding inverts encoding for teams. -/
theorem decodeTeam_encode (t : Team) : decodeTeam (encodeTeam t) = some t :=
  rfl

/-- Decoding inverts encoding for categories. -/
theorem decodeCategory_encode (c : Category) :
    decodeCategory (encodeCategory c) = some c := by
  cases c <;> rfl

/-- Decoding inverts encoding for the nullable category filter. -/
theorem decodeCatFilter_encode (o : Option CatFilter) :
    decodeCatFilter (encodeCatFilter o) = some o := by
  rcases o with _ | f
  · rfl
  · cases f with
    | all => rfl
    | cat c => cases c <;> rfl

/-- Decoding inverts encoding for the nullable pattern count. -/
theorem decodePatternCount_encode (o : Option PatternCount) :
    decodePatternCount (encodePatternCount o) = some o := by
  rcases o with _ | n
  · rfl
  · cases n <;> rfl

/-- Element-wise decoding inverts element-wise encoding. -/
theorem decodeElems_map_encode {α : Type} (dec : Json → Option α)
    (enc : α → Json) (h : ∀ a, dec (enc a) = some a) (xs : List α) :
    decodeList.decodeElems dec (xs.map enc) = some xs := by
  induction xs with
  | nil => rfl
  | cons a as ih => simp [decodeList.decodeElems, h a, ih]

/-- Array decoding inverts array encoding. -/
theorem decodeList_map_encode {α : Type} (dec : Json → Option α)
    (enc : α → Json) (h : ∀ a, dec (enc a) = some a) (xs : List α) :
    decodeList dec (.arr (xs.map enc)) = some xs := by
  simp [decodeList, decodeElems_map_encode dec enc h xs]

/-- Decoding inverts encoding for catalog entries. -/
theorem decodeExample_encode (e : PatternExample) :
    decodeExample (encodeExample e) = some e := by
  simp [decodeExample, encodeExample, Json.getField, List.lookup, decodeList,
    decodeCategory_encode,
    decodeElems_map_encode decodeStr Json.str (fun _ => rfl)]

/-- Decoding inverts encoding for the nullable current example. -/
theorem decodeOptExample_encode (o : Option PatternExample) :
    decodeOptExample (encodeOptExample o) = some o := by
  rcases o with _ | e
  · rfl
  · have h := decodeExample_encode e
    simp [decodeOptExample, encodeOptExample, h]
    cases e with
    | mk => simp [encodeExample]

/-- Decoding inverts encoding for the nullable winner team. -/
theorem decodeOptTeam_encode (o : Option Team) :
    decodeOptTeam (encodeOptTeam o) = some o := by
  rcases o with _ | t
  · rfl
  · simp [decodeOptTeam, encodeOptTeam, decodeTeam_encode t]
    cases t with
    | mk => simp [encodeTeam]

/-- Decoding inverts encoding for the nullable round start time. -/
theorem decodeOptInt_encode (o : Option Int) :
    decodeOptInt (encodeOptInt o) = some o := by
  rcases o with _ | i <;> rfl

/-- Decoding inverts encoding for history entries. -/
theorem decodeHistory_encode (h : AnswerHistory) :
    decodeHistory (encodeHistory h) = some h := by
  simp [decodeHistory, encodeHistory, Json.getField, List.lookup,
    decodeExample_encode, decodeOptTeam_encode]

/-- Parsing the serialized full state recovers every field. -/
theorem parseSnapshot_encodeGame (w : GameState) :
    parseSnapshot (encodeGame w) =
      { teams := some w.teams
        roundNumber := some w.roundNumber
        usedExampleIds := some w.usedExampleIds
        currentExample := some w.currentExample
        solutionRevealed := some w.solutionRevealed
        selectedCategory := some w.selectedCategory
        selectedPatternCount := some w.selectedPatternCount
        answerHistory := some w.answerHistory
        roundStartTime := some w.roundStartTime
        isPaused := some w.isPaused } := by
  simp [parseSnapshot, encodeGame, Json.getField, List.lookup,
    decodeList_map_encode decodeTeam encodeTeam decodeTeam_encode,
    decodeList_map_encode decodeStr Json.str (fun _ => rfl),
    decodeList_map_encode decodeHistory encodeHistory decodeHistory_encode,
    decodeOptExample_encode, decodeCatFilter_encode, decodePatternCount_encode,
    decodeOptInt_encode, decodeInt, decodeBool]

/-- Hydrating any state from the parsed serialization of a full state
yields that full state: the complete snapshot makes the shallow merge a
wholesale overwrite. -/
theorem hydrate_parseSnapshot_encodeGame (r w : GameState) :
    hydrate (parseSnapshot (encodeGame w)) r = w := by
  rw [parseSnapshot_encodeGame]
  rfl

/-- `awardPoint` never changes the reveal flag or the current
example. -/
theorem invB_awardPoint (now : Int) (teamId : String) (s : GameState) :
    invB (awardPoint now teamId s) = invB s := by
  unfold awardPoint
  rcases hce : s.currentExample with _ | ex <;>
    rcases hrt : s.roundStartTime with _ | start <;>
    simp [invB, hce]
  split
  · simp [hce]
  · rcases addScoreFirst teamId 1 s.teams with ⟨ts', _ | t'⟩ <;> simp [hce]

/-- Every safe step preserves the reveal invariant. -/
theorem invB_applyAction (s : GameState) (a : GameAction)
    (h : invB s = true) (hs : safeStep s a = true) :
    invB (applyAction a s) = true := by
  cases a with
  | setTeams ts => exact h
  | updateTeamScore teamId points => exact h
  | setCurrentExample now p =>
    cases p with
    | some e => rfl
    | none => simpa [safeStep, applyAction, setCurrentExample, invB] using hs
  | setSelectedCategory c => exact h
  | setSelectedPatternCount n => exact h
  | revealSolution => simpa [applyAction, revealSolution, invB] using hs
  | awardPoint now teamId => rw [applyAction, invB_awardPoint]; exact h
  | nextRound => rfl
  | togglePause => exact h
  | resetGame => rfl
  | hydrate p => exact hs

/-- Incrementing the first matching team rewrites exactly the first
occurrence and returns the updated team. -/
theorem addScoreFirst_append (teamId : String) (points : Int)
    (pre post : List Team) (t : Team)
    (hpre : ∀ u ∈ pre, (u.id == teamId) = false) (ht : t.id = teamId) :
    addScoreFirst teamId points (pre ++ t :: post) =
      (pre ++ { t with score := t.score + points } :: post,
       some { t with score := t.score + points }) := by
  induction pre with
  | nil => simp [addScoreFirst, ht]
  | cons u us ih =>
    have hu : (u.id == teamId) = false := hpre u (by simp)
    have ih' := ih fun v hv => hpre v (by simp [hv])
    simp [addScoreFirst, hu, ih']

/-- A sample catalog entry used by concrete instances below. -/
def exC : PatternExample where
  id := "creational-01"
  title := "Pizzeria online"
  category := .creational
  code := "class Forno {}"
  solutionPatterns := ["Singleton"]
  solutionExplanation := "Spiegazione"

/-- A sample team used by concrete instances below. -/
def teamA : Team where
  id := "team-a"
  name := "Alpha"
  score := 0
  color := "#ff0000"

/-- A second sample team used by concrete instances below. -/
def teamB : Team where
  id := "team-b"
  name := "Beta"
  score := 0
  color := "#0000ff"

/-- A state with an example shown and the solution revealed but with
`roundStartTime` still null, as `hydrate` can produce. -/
def c1CexState : GameState :=
  { initialState with
      teams := [teamA]
      currentExample := some exC
      solutionRevealed := true }

/-- C1.  The claim quantifies over every game state with a current
example shown and the solution revealed and only requires the team id
to be present, but the `awardPoint` reducer additionally guards on
`state.roundStartTime` being truthy.  In this state (reachable by
hydrating a partial snapshot, which bypasses all precondition checks)
the example is shown, the solution is revealed, and `team-a` is in the
team list, yet `awardPoint` + `nextRound` leaves the team's score at 0
and appends no history entry, while the round number still advances:
the claimed +1 and single appended entry do not happen. -/
theorem award_intent_cex_missing_roundStartTime :
    c1CexState.currentExample = some exC ∧
    c1CexState.solutionRevealed = true ∧
    c1CexState.teams = [teamA] ∧
    teamA.score = 0 ∧
    (handleAwardPoint 120000 "team-a" c1CexState).teams = [teamA] ∧
    (handleAwardPoint 120000 "team-a" c1CexState).answerHistory = [] ∧
    (handleAwardPoint 120000 "team-a" c1CexState).roundNumber =
      c1CexState.roundNumber + 1 :=
  ⟨rfl, rfl, rfl, rfl, rfl, rfl, rfl⟩

/-- C1 (amended).  In every game state with a current example shown,
the solution revealed, and `roundStartTime` set to a nonzero timestamp
(as `setCurrentExample` always leaves it), awarding a point to a team
id present in the team list and immediately advancing the round
increments exactly that team's score by 1 (the first team with that
id), leaves every other team untouched, appends exactly one history
entry carrying the pre-advance round number, and increments the round
number by exactly 1. -/
theorem award_intent_scores_and_advances
    (s : GameState) (now start : Int) (teamId : String)
    (ex : PatternExample) (pre post : List Team) (t : Team)
    (hteams : s.teams = pre ++ t :: post)
    (hpre : ∀ u ∈ pre, (u.id == teamId) = false)
    (ht : t.id = teamId)
    (hex : s.currentExample = some ex)
    (_hrev : s.solutionRevealed = true)
    (hrst : s.roundStartTime = some start)
    (hstart : start ≠ 0) :
    (handleAwardPoint now teamId s).teams =
      pre ++ { t with score := t.score + 1 } :: post ∧
    (handleAwardPoint now teamId s).answerHistory =
      s.answerHistory ++
        [{ roundNumber := s.roundNumber
           «example» := ex
           winnerTeam := some { t with score := t.score + 1 }
           timestamp := now
           timeElapsed := (now - start).fdiv 1000 }] ∧
    (handleAwardPoint now teamId s).roundNumber = s.roundNumber + 1 := by
  have hz : (start == 0) = false := by simpa using hstart
  have hadd := addScoreFirst_append teamId 1 pre post t hpre ht
  unfold handleAwardPoint awardPoint
  rw [hex, hrst]
  simp [hz, hteams, hadd, nextRound]

/-- A revealed-phase state with a valid round start time, for the C1
witness. -/
def c1WitState : GameState :=
  { initialState with
      teams := [teamA, teamB]
      currentExample := some exC
      solutionRevealed := true
      roundStartTime := some 100000 }

/-- Concrete instance of the amended C1: awarding to `team-a` after
3.5 elapsed seconds. -/
theorem award_intent_scores_and_advances_witness :
    (handleAwardPoint 103500 "team-a" c1WitState).teams =
      [] ++ { teamA with score := teamA.score + 1 } :: [teamB] ∧
    (handleAwardPoint 103500 "team-a" c1WitState).answerHistory =
      c1WitState.answerHistory ++
        [{ roundNumber := c1WitState.roundNumber
           «example» := exC
           winnerTeam := some { teamA with score := teamA.score + 1 }
           timestamp := 103500
           timeElapsed := ((103500 : Int) - 100000).fdiv 1000 }] ∧
    (handleAwardPoint 103500 "team-a" c1WitState).roundNumber =
      c1WitState.roundNumber + 1 :=
  award_intent_scores_and_advances c1WitState 103500 100000 "team-a" exC
    [] [teamB] teamA rfl (by simp) (by decide) rfl rfl rfl (by decide)

/-- C2.  The claimed invariant fails on the code: `revealSolution` has
no phase guard, so dispatching it from the initial state (where no
example is shown) makes `solutionRevealed` true while `currentExample`
is null. -/
theorem reveal_invariant_cex_unguarded_reveal :
    (applyList [GameAction.revealSolution] initialState).solutionRevealed
        = true ∧
    (applyList [GameAction.revealSolution] initialState).currentExample
        = none :=
  ⟨rfl, rfl⟩

/-- C2 (amended).  The invariant `solutionRevealed → currentExample ≠
null` is preserved by every transition except `revealSolution` fired
with no current example, `setCurrentExample(null)` fired while the
solution is revealed, and `hydrate` with a snapshot whose merge result
violates it; along any sequence of transitions from a state satisfying
the invariant in which those three cases do not occur (`safeTrace`),
the invariant holds in the resulting state. -/
theorem reveal_invariant_safe_traces (s : GameState)
    (acts : List GameAction) (h : invB s = true)
    (hsafe : safeTrace s acts = true) :
    invB (applyList acts s) = true := by
  induction acts generalizing s with
  | nil => exact h
  | cons a as ih =>
    rw [safeTrace, Bool.and_eq_true] at hsafe
    exact ih (applyAction a s) (invB_applyAction s a h hsafe.1) hsafe.2

/-- A safe trace for the C2 witness: show an example, reveal it in the
example-shown phase, advance the round. -/
def c2Acts : List GameAction :=
  [.setCurrentExample 100000 (some exC), .revealSolution, .nextRound]

/-- Concrete instance of the amended C2 on a full round trace. -/
theorem reveal_invariant_safe_traces_witness :
    safeTrace initialState c2Acts = true ∧
    invB (applyList c2Acts initialState) = true :=
  ⟨by decide, reveal_invariant_safe_traces initialState c2Acts
    (by decide) (by decide)⟩

/-- C3.  Whatever the reader's current state, any sync trigger that
finds the slot holding the writer's serialized full state hydrates the
reader to exactly the writer's state: the snapshot is complete, so the
shallow merge is a wholesale overwrite, and in particular after the
next poll tick the reader equals the writer's post-transition state,
whatever transitions the writer applied. -/
theorem sync_reader_equals_writer (r w : GameState)
    (acts : List GameAction) :
    syncFromLocalStorage (persistSnapshot w) r = w ∧
    syncFromLocalStorage (persistSnapshot (applyList acts w)) r =
      applyList acts w :=
  ⟨hydrate_parseSnapshot_encodeGame r w,
   hydrate_parseSnapshot_encodeGame r (applyList acts w)⟩

/-- C4.  When no catalog entry matches the filters (category
restriction, exact solution pattern count, id not yet used), the
repository returns null for every random draw, and the controller's
show-example intent raises the user-facing alert and returns the state
unchanged, dispatching no transition. -/
theorem exhausted_catalog_no_transition
    (catalog : List PatternExample) (pick : Nat) (now : Int)
    (s : GameState) (cat : CatFilter) (cnt : PatternCount)
    (hcat : s.selectedCategory = some cat)
    (hcnt : s.selectedPatternCount = some cnt)
    (hnone : ∀ e ∈ catalog,
      exampleMatches cnt (categoryFilterOf cat) s.usedExampleIds e = false) :
    getRandomExampleByPatternCount catalog cnt (categoryFilterOf cat)
      s.usedExampleIds pick = none ∧
    handleShowExample catalog pick now s = (s, true) := by
  have hfil : catalog.filter
      (exampleMatches cnt (categoryFilterOf cat) s.usedExampleIds) = [] :=
    List.filter_eq_nil_iff.mpr fun a ha => by simp [hnone a ha]
  have hsel : getRandomExampleByPatternCount catalog cnt
      (categoryFilterOf cat) s.usedExampleIds pick = none := by
    simp [getRandomExampleByPatternCount, hfil]
  exact ⟨hsel, by simp [handleShowExample, hcat, hcnt, hsel]⟩

/-- A setup-phase state whose filters match nothing in a
single-example catalog (wrong category), for the C4 witness. -/
def c4State : GameState :=
  { initialState with
      selectedCategory := some (.cat .structural)
      selectedPatternCount := some .one }

/-- Concrete instance of C4: the only catalog entry is creational, the
filter asks for structural, so selection is exhausted and the state is
returned unchanged with the alert flag set. -/
theorem exhausted_catalog_no_transition_witness :
    getRandomExampleByPatternCount [exC] .one
      (categoryFilterOf (.cat .structural)) c4State.usedExampleIds 0 =
        none ∧
    handleShowExample [exC] 0 99000 c4State = (c4State, true) :=
  exhausted_catalog_no_transition [exC] 0 99000 c4State
    (.cat .structural) .one rfl rfl (by decide)

/-- C5.  The select-category intent (`handleCategorySelect`) sets the
category filter and always resets the selected pattern count to null,
whatever its prior value (null, 1, 2 or 3) and whatever the prior
state. -/
theorem categorySelect_clears_patternCount (s : GameState)
    (c : CatFilter) :
    (handleCategorySelect c s).selectedCategory = some c ∧
    (handleCategorySelect c s).selectedPatternCount = none :=
  ⟨rfl, rfl⟩

/-- C6.  When the stored slot is missing (falsy `getItem` result) or
malformed (`JSON.parse` throws, the error is caught and logged), the
reader skips hydration for that sync cycle and its state is retained
exactly — no partial change occurs. -/
theorem failed_read_keeps_state (s : GameState) (slot : StoredValue)
    (h : slot = .missing ∨ slot = .malformed) :
    syncFromLocalStorage slot s = s := by
  rcases h with h | h <;> rw [h] <;> rfl

/-- Concrete instance of C6: a malformed slot leaves the initial state
untouched. -/
theorem failed_read_keeps_state_witness :
    syncFromLocalStorage .malformed initialState = initialState :=
  failed_read_keeps_state initialState .malformed (Or.inr rfl)

/-- C7.  Serializing any game state and hydrating the initial (empty)
state from the parsed snapshot reproduces a state equal to the
original — equality of the whole record, hence of every field: teams,
round number, used example ids, current example, reveal flag, category
and count filters, answer history, round start time, and pause flag. -/
theorem serialize_hydrate_roundtrip (s : GameState) :
    hydrate (parseSnapshot (encodeGame s)) initialState = s :=
  hydrate_parseSnapshot_encodeGame initialState s

/-- C8.  The claim's recompute clause fails at the code: the effect
guard is `if (!roundStartTime || isPaused) return`, JavaScript
truthiness, so with `roundStartTime` set to the falsy number 0 —
non-null, hence inside the claim's "roundStartTime set" — and the game
unpaused, the interval is never installed and a firing opportunity
leaves the displayed value at 7 instead of recomputing
`floor((5000 - 0) / 1000) = 5`. -/
theorem timer_cex_zero_start :
    timerTick (some 0) false 5000 7 = 7 ∧
    ((5000 : Int) - 0).fdiv 1000 = 5 ∧
    timerTick (some 0) false 5000 7 ≠ ((5000 : Int) - 0).fdiv 1000 :=
  ⟨rfl, by decide, by decide⟩

/-- C8 (amended).  The viewer's elapsed-time display is frozen while
paused and while no round is running, where "no round running" is the
guard's truthiness test: the displayed value is left untouched when
`isPaused` is true, when `roundStartTime` is null, and also when it is
the falsy number 0; when unpaused with `roundStartTime` set to a
nonzero timestamp, each tick (scheduled every `timerIntervalMs` =
1000 ms) recomputes the display as
`floor((now - roundStartTime) / 1000)`, with `roundStartTime` used as
the unaltered origin. -/
theorem timer_freeze_and_formula (rst : Option Int) (p : Bool)
    (now e start : Int) :
    (p = true → timerTick rst p now e = e) ∧
    (rst = none → timerTick rst p now e = e) ∧
    (rst = some 0 → timerTick rst p now e = e) ∧
    (rst = some start → start ≠ 0 → p = false →
      timerTick rst p now e = (now - start).fdiv 1000) := by
  refine ⟨fun hp => ?_, fun hn => ?_, fun hz => ?_, fun hs hnz hp => ?_⟩
  · cases rst <;> simp [timerTick, hp]
  · rw [hn]; rfl
  · rw [hz]; rfl
  · have hz : (start == 0) = false := by simpa using hnz
    rw [hs, hp]
    simp [timerTick, hz, timerIntervalMs]

/-- Concrete instance of the amended C8: ticks at 5 s into a round
started at 2 s, paused and unpaused, plus the null-round and
zero-start frozen cases. -/
theorem timer_freeze_and_formula_witness :
    timerTick (some 2000) true 5000 7 = 7 ∧
    timerTick none false 5000 7 = 7 ∧
    timerTick (some 0) false 5000 7 = 7 ∧
    timerTick (some 2000) false 5000 7 = 3 := by
  refine ⟨(timer_freeze_and_formula (some 2000) true 5000 7 2000).1 rfl,
          (timer_freeze_and_formula none false 5000 7 0).2.1 rfl,
          (timer_freeze_and_formula (some 0) false 5000 7 0).2.2.1 rfl, ?_⟩
  have h := (timer_freeze_and_formula (some 2000) false 5000 7 2000).2.2.2
    rfl (by decide) rfl
  rw [h]
  decide

/-- C9.  The scoreboard ranking shown by the controller and the viewer
is the score-descending sort of a copy of the team list: it is a
permutation of the stored list, and the state that the middleware
persists (and that any window re-reads) still carries the teams in
their original insertion order — the re-sorted list is never written
back or persisted. -/
theorem display_sort_leaves_teams_unsorted (s : GameState) :
    (sortedTeamsView s).Perm s.teams ∧
    (parseSnapshot (encodeGame s)).teams = some s.teams := by
  constructor
  · exact List.mergeSort_perm s.teams _
  · rw [parseSnapshot_encodeGame]

/-- A paused state whose round start time is the falsy number 0, for
the C10 counterexample. -/
def c10CexState : GameState :=
  { initialState with
      currentExample := some exC
      roundStartTime := some 0
      isPaused := true }

/-- C10.  The claim's hypothesis only asks for `roundStartTime`
non-null, but the timer guard `if (!roundStartTime || isPaused)
return` is JavaScript truthiness: with `roundStartTime = 0` (a round
"in progress" by the claim's non-null reading), unpausing never
installs the interval, so the next firing opportunity keeps the
previously displayed 7 instead of the claimed
`floor((5000 - 0) / 1000) = 5`. -/
theorem unpause_cex_zero_start :
    c10CexState.roundStartTime = some 0 ∧
    c10CexState.isPaused = true ∧
    (togglePause c10CexState).isPaused = false ∧
    timerTick (togglePause c10CexState).roundStartTime
        (togglePause c10CexState).isPaused 5000 7 = 7 ∧
    ((5000 : Int) - 0).fdiv 1000 = 5 :=
  ⟨rfl, rfl, rfl, rfl, by decide⟩

/-- A paused mid-round state for the C10 witness. -/
def c10State : GameState :=
  { initialState with
      currentExample := some exC
      roundStartTime := some 100000
      isPaused := true }

/-- C10 (amended).  For a round in progress with `roundStartTime` set
to a nonzero timestamp, unpausing flips only the flag:
`roundStartTime` is unchanged, and the next timer tick recomputes the
display as `floor((now - roundStartTime) / 1000)` from the original
start timestamp regardless of the previously displayed value — the
time spent paused is therefore included in the displayed elapsed
time. -/
theorem unpause_includes_paused_interval (s : GameState)
    (start now e e' : Int)
    (hrst : s.roundStartTime = some start) (hnz : start ≠ 0)
    (hp : s.isPaused = true) :
    (togglePause s).isPaused = false ∧
    (togglePause s).roundStartTime = some start ∧
    timerTick (togglePause s).roundStartTime (togglePause s).isPaused
        now e = (now - start).fdiv 1000 ∧
    timerTick (togglePause s).roundStartTime (togglePause s).isPaused
        now e =
      timerTick (togglePause s).roundStartTime (togglePause s).isPaused
        now e' := by
  have h1 : (togglePause s).isPaused = false := by
    simp [togglePause, hp]
  have h2 : (togglePause s).roundStartTime = some start := by
    simpa [togglePause] using hrst
  have hz : (start == 0) = false := by simpa using hnz
  refine ⟨h1, h2, ?_, ?_⟩ <;> rw [h1, h2] <;>
    simp [timerTick, hz, timerIntervalMs]

/-- Concrete instance of the amended C10: a round started at 100 s,
paused, then unpaused and ticked at 103.5 s displays 3 elapsed seconds
whatever was displayed before. -/
theorem unpause_includes_paused_interval_witness :
    (togglePause c10State).isPaused = false ∧
    (togglePause c10State).roundStartTime = some 100000 ∧
    timerTick (togglePause c10State).roundStartTime
        (togglePause c10State).isPaused 103500 2 =
      ((103500 : Int) - 100000).fdiv 1000 ∧
    timerTick (togglePause c10State).roundStartTime
        (togglePause c10State).isPaused 103500 2 =
      timerTick (togglePause c10State).roundStartTime
        (togglePause c10State).isPaused 103500 9 :=
  unpause_includes_paused_interval c10State 100000 103500 2 9 rfl
    (by decide) rfl
